import Mathlib

/-!
Verification of the record-store component (`DatabaseManager` in
`src/server.py`): a single SQLite `users` table with five CRUD operations.

The shallow embedding below models:
* the table as a list of `Record`s plus the AUTOINCREMENT counter (`DB`);
* each operation as a pure function from a `DB` (and the call arguments) to
  an `OpResult`, carrying the Python-level outcome (`Except DBError`), the
  resulting table state, the number of SQL statements that reached the
  storage layer during the call, and whether the sqlite connection was
  opened and whether it was closed before the operation returned
  (the Python code has no try/finally, so error paths taken after
  `get_connection()` skip `conn.close()`);
* Python `str.strip()` as `pyStrip` (drop whitespace at both ends),
  `"@" in email` as `pyContainsAt`, and Python truthiness of the optional
  `name`/`email` parameters of `update_user` as `pyTruthy` (both `None`
  and `""` are falsy).

Error taxonomy: the Python code signals every domain error as `ValueError`;
messages distinguish the kinds the spec names, so errors are modelled as a
`DBError` with the kind and the exact message text.
-/

/-- A row of the `users` table.  `created_at` is `Option` so that the
spec's "non-null `created_at`" is statable; the store assigns `some now`
at insertion (SQLite `DEFAULT CURRENT_TIMESTAMP`). -/
structure Record where
  id : Nat
  name : String
  email : String
  created_at : Option Nat
deriving DecidableEq

/-- The persistent state: the rows of the `users` table in insertion
order, and the AUTOINCREMENT counter (next id to assign; never reused
after deletion). -/
structure DB where
  rows : List Record
  nextId : Nat
deriving DecidableEq

/-- A freshly initialized database: no rows, first id will be 1. -/
def DB.empty : DB := ⟨[], 1⟩

/-- The error kinds of the spec taxonomy, with the message text the code
attaches (`server.py` raises `ValueError` with these messages). -/
inductive DBError where
  | validationError (msg : String)
  | duplicateError (msg : String)
  | notFoundError (msg : String)
deriving DecidableEq

/-- Outcome of one operation call: the Python-level result, the table
state after the call, how many SQL statements reached the storage layer,
and whether the connection was opened / closed before returning. -/
structure OpResult (α : Type) where
  result : Except DBError α
  db : DB
  stmts : Nat
  connOpened : Bool
  connClosed : Bool

/-- Python `str.strip()`: remove leading and trailing whitespace. -/
def pyStrip (s : String) : String :=
  ⟨((s.data.dropWhile Char.isWhitespace).reverse.dropWhile Char.isWhitespace).reverse⟩

/-- Python `"@" in email`: the email contains the character `@`. -/
def pyContainsAt (s : String) : Bool :=
  s.data.contains '@'

/-- Python truthiness of an optional string parameter: `None` and `""`
are falsy, every other string is truthy. -/
def pyTruthy : Option String → Bool
  | none => false
  | some s => !(s == "")

/-- The embedding of `DatabaseManager.create_user(name, email)`
(src/server.py lines 56-88). Validates, INSERTs (translating the UNIQUE
violation on `email` into "Email already exists"), re-SELECTs and returns
the created row.  On the duplicate path the connection is opened but never
closed (the `except` clause re-raises without closing). -/
def create_user (db : DB) (now : Nat) (name email : String) : OpResult Record :=
  if name = "" ∨ pyStrip name = "" then
    ⟨.error (.validationError "Name must be a non-empty string"), db, 0, false, false⟩
  else if email = "" ∨ pyContainsAt email = false then
    ⟨.error (.validationError "Email must be a valid email address"), db, 0, false, false⟩
  else if db.rows.any (fun r => r.email == pyStrip email) then
    ⟨.error (.duplicateError "Email already exists"), db, 1, true, false⟩
  else
    let u : Record := ⟨db.nextId, pyStrip name, pyStrip email, some now⟩
    ⟨.ok u, ⟨db.rows ++ [u], db.nextId + 1⟩, 2, true, true⟩

/-- The embedding of `DatabaseManager.read_user(user_id)`
(src/server.py lines 90-111).  Note the code closes the connection
before the not-found check, so both storage paths close it. -/
def read_user (db : DB) (user_id : Int) : OpResult Record :=
  if user_id ≤ 0 then
    ⟨.error (.validationError "User ID must be a positive integer"), db, 0, false, false⟩
  else
    match db.rows.find? (fun r => (r.id : Int) == user_id) with
    | none =>
      ⟨.error (.notFoundError ("User with ID " ++ toString user_id ++ " not found")),
        db, 1, true, true⟩
    | some r => ⟨.ok r, db, 1, true, true⟩

/-- Insert a record into a list kept in descending-id order. -/
def insertDesc (r : Record) : List Record → List Record
  | [] => [r]
  | x :: xs => if x.id ≤ r.id then r :: x :: xs else x :: insertDesc r xs

/-- Sort a list of records by id descending: the embedding of
`ORDER BY id DESC`. -/
def sortDesc : List Record → List Record
  | [] => []
  | x :: xs => insertDesc x (sortDesc xs)

/-- The payload `read_all_users` returns: the page of rows and the
pagination envelope (total count plus the echoed clamped limit/offset). -/
structure PageData where
  data : List Record
  total : Nat
  limit : Int
  offset : Int
deriving DecidableEq

/-- The embedding of `DatabaseManager.read_all_users(limit, offset)`
(src/server.py lines 113-143): silently clamps the pagination inputs,
then `SELECT * FROM users ORDER BY id DESC LIMIT ? OFFSET ?` and
`SELECT COUNT(*)`. -/
def read_all_users (db : DB) (limit offset : Int) : OpResult PageData :=
  let lim : Int := if limit ≤ 0 ∨ 1000 < limit then 100 else limit
  let off : Int := if offset < 0 then 0 else offset
  let page := (((sortDesc db.rows).drop off.toNat).take lim.toNat)
  ⟨.ok ⟨page, db.rows.length, lim, off⟩, db, 2, true, true⟩

/-- The row produced by the `UPDATE users SET ...` statement for the
supplied (truthy) fields, applied to one existing row. -/
def applyUpdate (name email : Option String) (r : Record) : Record :=
  ⟨r.id,
    if pyTruthy name then pyStrip (name.getD "") else r.name,
    if pyTruthy email then pyStrip (email.getD "") else r.email,
    r.created_at⟩

/-- The embedding of `DatabaseManager.update_user(user_id, name, email)`
(src/server.py lines 145-194).  The id-positivity and at-least-one-field
checks run before the connection is opened; the existence SELECT runs
next; the per-field validation runs after that SELECT; a UNIQUE violation
(new email equal to a different row's email) raises "Email already
exists".  All error paths after the connection is opened return without
closing it. -/
def update_user (db : DB) (user_id : Int) (name email : Option String) : OpResult Record :=
  if user_id ≤ 0 then
    ⟨.error (.validationError "User ID must be a positive integer"), db, 0, false, false⟩
  else if !(pyTruthy name) && !(pyTruthy email) then
    ⟨.error (.validationError "At least one field (name or email) must be provided"),
      db, 0, false, false⟩
  else
    match db.rows.find? (fun r => (r.id : Int) == user_id) with
    | none =>
      ⟨.error (.notFoundError ("User with ID " ++ toString user_id ++ " not found")),
        db, 1, true, false⟩
    | some r =>
      if pyTruthy name && (pyStrip (name.getD "") == "") then
        ⟨.error (.validationError "Name must be a non-empty string"), db, 1, true, false⟩
      else if pyTruthy email && !(pyContainsAt (email.getD "")) then
        ⟨.error (.validationError "Email must be a valid email address"), db, 1, true, false⟩
      else if pyTruthy email &&
          db.rows.any (fun x => !((x.id : Int) == user_id) && (x.email == pyStrip (email.getD ""))) then
        ⟨.error (.duplicateError "Email already exists"), db, 2, true, false⟩
      else
        ⟨.ok (applyUpdate name email r),
          ⟨db.rows.map (fun x => if (x.id : Int) == user_id then applyUpdate name email x else x),
            db.nextId⟩,
          3, true, true⟩

/-- The embedding of `DatabaseManager.delete_user(user_id)`
(src/server.py lines 196-224): existence SELECT, then DELETE; returns the
row as it was before the DELETE.  The not-found path returns without
closing the connection. -/
def delete_user (db : DB) (user_id : Int) : OpResult Record :=
  if user_id ≤ 0 then
    ⟨.error (.validationError "User ID must be a positive integer"), db, 0, false, false⟩
  else
    match db.rows.find? (fun r => (r.id : Int) == user_id) with
    | none =>
      ⟨.error (.notFoundError ("User with ID " ++ toString user_id ++ " not found")),
        db, 1, true, false⟩
    | some r =>
      ⟨.ok r, ⟨db.rows.filter (fun x => !((x.id : Int) == user_id)), db.nextId⟩, 2, true, true⟩

/-- A row as the store itself creates it: positive id below the counter,
stored fields trimmed, a non-empty name, an email containing `@`, a
non-null timestamp. -/
def ValidRow (nid : Nat) (r : Record) : Prop :=
  1 ≤ r.id ∧ r.id < nid ∧ pyStrip r.name = r.name ∧ r.name ≠ "" ∧
    pyStrip r.email = r.email ∧ pyContainsAt r.email = true ∧ r.created_at.isSome = true

/-- Well-formed (reachable) states of the store: counter at least 1,
every row valid, ids and emails pairwise distinct (PRIMARY KEY and
UNIQUE constraints). -/
def DB.WF (db : DB) : Prop :=
  1 ≤ db.nextId ∧ (∀ r ∈ db.rows, ValidRow db.nextId r) ∧
    List.Pairwise (fun a b => a.id ≠ b.id ∧ a.email ≠ b.email) db.rows

instance (nid : Nat) (r : Record) : Decidable (ValidRow nid r) := by
  unfold ValidRow; infer_instance

instance (db : DB) : Decidable db.WF := by
  unfold DB.WF
  infer_instance

theorem pyStrip_empty : pyStrip "" = "" := rfl

theorem ne_empty_of_pyStrip_ne {s : String} (h : pyStrip s ≠ "") : s ≠ "" := by
  intro he
  rw [he] at h
  exact h pyStrip_empty

theorem ne_empty_of_pyContainsAt {s : String} (h : pyContainsAt s = true) : s ≠ "" := by
  intro he
  rw [he] at h
  exact absurd h (by decide)

/-- With pairwise-distinct ids, `find?` on the id of a member returns that
member (the predicate is exactly the one the operations use). -/
theorem find?_id_eq_some_of_mem {rows : List Record} {r : Record}
    (hu : List.Pairwise (fun a b => a.id ≠ b.id) rows) (hmem : r ∈ rows) :
    rows.find? (fun x => (x.id : Int) == (r.id : Int)) = some r := by
  induction rows with
  | nil => cases hmem
  | cons a l ih =>
    have hu' := List.pairwise_cons.mp hu
    rcases List.mem_cons.mp hmem with rfl | h
    · exact List.find?_cons_of_pos _ (by simp)
    · have hne : ¬(((a.id : Int) == ((r.id : Nat) : Int)) = true) := by
        simp
        exact hu'.1 r h
      have hstep : List.find? (fun x => (x.id : Int) == (r.id : Int)) (a :: l) =
          List.find? (fun x => (x.id : Int) == (r.id : Int)) l :=
        List.find?_cons_of_neg _ hne
      rw [hstep]
      exact ih hu'.2 h

/-- Inserting into a descending-by-id list permutes consing. -/
theorem insertDesc_perm (r : Record) (l : List Record) :
    List.Perm (insertDesc r l) (r :: l) := by
  induction l with
  | nil => exact List.Perm.refl _
  | cons x xs ih =>
    rw [insertDesc]
    by_cases hx : x.id ≤ r.id
    · rw [if_pos hx]
    · rw [if_neg hx]
      exact (ih.cons x).trans (List.Perm.swap r x xs)

/-- `sortDesc` permutes its input. -/
theorem sortDesc_perm (l : List Record) : List.Perm (sortDesc l) l := by
  induction l with
  | nil => exact List.Perm.refl _
  | cons x xs ih =>
    rw [sortDesc]
    exact (insertDesc_perm x (sortDesc xs)).trans (ih.cons x)

theorem insertDesc_pairwise {l : List Record}
    (h : List.Pairwise (fun a b => b.id ≤ a.id) l) (r : Record) :
    List.Pairwise (fun a b => b.id ≤ a.id) (insertDesc r l) := by
  induction l with
  | nil => simp [insertDesc]
  | cons x xs ih =>
    have h' := List.pairwise_cons.mp h
    rw [insertDesc]
    by_cases hx : x.id ≤ r.id
    · rw [if_pos hx]
      refine List.pairwise_cons.mpr ⟨?_, h⟩
      intro b hb
      rcases List.mem_cons.mp hb with rfl | hb'
      · exact hx
      · exact le_trans (h'.1 b hb') hx
    · rw [if_neg hx]
      refine List.pairwise_cons.mpr ⟨?_, ih h'.2⟩
      intro b hb
      rcases List.mem_cons.mp ((insertDesc_perm r xs).mem_iff.mp hb) with rfl | hb'
      · omega
      · exact h'.1 b hb'

/-- The output of `sortDesc` is ordered by id descending. -/
theorem sortDesc_pairwise (l : List Record) :
    List.Pairwise (fun a b => b.id ≤ a.id) (sortDesc l) := by
  induction l with
  | nil => simp [sortDesc]
  | cons x xs ih =>
    rw [sortDesc]
    exact insertDesc_pairwise ih x

/-- Exhaustive description of `create_user`: two validation-failure shapes,
the duplicate-email shape, and the success shape. -/
theorem create_user_cases (db : DB) (now : Nat) (name email : String) :
    (∃ m, create_user db now name email = ⟨.error (.validationError m), db, 0, false, false⟩) ∨
    (create_user db now name email =
      ⟨.error (.duplicateError "Email already exists"), db, 1, true, false⟩) ∨
    (create_user db now name email =
      ⟨.ok ⟨db.nextId, pyStrip name, pyStrip email, some now⟩,
        ⟨db.rows ++ [⟨db.nextId, pyStrip name, pyStrip email, some now⟩], db.nextId + 1⟩,
        2, true, true⟩) := by
  unfold create_user
  split_ifs with h1 h2 h3
  · exact .inl ⟨_, rfl⟩
  · exact .inl ⟨_, rfl⟩
  · exact .inr (.inl rfl)
  · exact .inr (.inr rfl)

/-- Exhaustive description of `update_user`: pre-storage validation
failures, not-found, post-storage field-validation failures, duplicate
email, and success. -/
theorem update_user_cases (db : DB) (uid : Int) (nm em : Option String) :
    (∃ m, update_user db uid nm em = ⟨.error (.validationError m), db, 0, false, false⟩) ∨
    (∃ m, update_user db uid nm em = ⟨.error (.notFoundError m), db, 1, true, false⟩) ∨
    (∃ m, update_user db uid nm em = ⟨.error (.validationError m), db, 1, true, false⟩) ∨
    (update_user db uid nm em =
      ⟨.error (.duplicateError "Email already exists"), db, 2, true, false⟩) ∨
    (∃ r, db.rows.find? (fun x => (x.id : Int) == uid) = some r ∧
      update_user db uid nm em =
        ⟨.ok (applyUpdate nm em r),
          ⟨db.rows.map (fun x => if (x.id : Int) == uid then applyUpdate nm em x else x),
            db.nextId⟩,
          3, true, true⟩) := by
  unfold update_user
  split_ifs with h1 h2 h3 h4 h5
  · exact .inl ⟨_, rfl⟩
  · exact .inl ⟨_, rfl⟩
  · split
    · exact .inr (.inl ⟨_, rfl⟩)
    · exact .inr (.inr (.inl ⟨_, rfl⟩))
  · split
    · exact .inr (.inl ⟨_, rfl⟩)
    · exact .inr (.inr (.inl ⟨_, rfl⟩))
  · split
    · exact .inr (.inl ⟨_, rfl⟩)
    · exact .inr (.inr (.inr (.inl rfl)))
  · split
    · exact .inr (.inl ⟨_, rfl⟩)
    · next r heq => exact .inr (.inr (.inr (.inr ⟨r, heq, rfl⟩)))

/-- Exhaustive description of `delete_user`. -/
theorem delete_user_cases (db : DB) (uid : Int) :
    (∃ m, delete_user db uid = ⟨.error (.validationError m), db, 0, false, false⟩) ∨
    (∃ m, delete_user db uid = ⟨.error (.notFoundError m), db, 1, true, false⟩) ∨
    (∃ r, db.rows.find? (fun x => (x.id : Int) == uid) = some r ∧
      delete_user db uid =
        ⟨.ok r, ⟨db.rows.filter (fun x => !((x.id : Int) == uid)), db.nextId⟩, 2, true, true⟩) := by
  unfold delete_user
  split_ifs with h1
  · exact .inl ⟨_, rfl⟩
  · split
    · exact .inr (.inl ⟨_, rfl⟩)
    · next r heq => exact .inr (.inr ⟨r, heq, rfl⟩)

theorem read_user_ok {db : DB} {r : Record}
    (hpos : ¬((r.id : Int) ≤ 0))
    (hfind : db.rows.find? (fun x => (x.id : Int) == (r.id : Int)) = some r) :
    (read_user db (r.id : Int)).result = .ok r := by
  unfold read_user
  rw [if_neg hpos, hfind]

theorem read_user_none {db : DB} {uid : Int}
    (hpos : ¬(uid ≤ 0))
    (hfind : db.rows.find? (fun x => (x.id : Int) == uid) = none) :
    (read_user db uid).result =
      .error (.notFoundError ("User with ID " ++ toString uid ++ " not found")) := by
  unfold read_user
  rw [if_neg hpos, hfind]

/-- C1: for every well-formed state, creating a record whose email equals
(exactly, case-sensitively) the email of an existing record fails with
`DuplicateError` carrying the domain message "Email already exists" (the
translated form, not the storage error), the state is unmodified by the
failed create, and the previously created record is still retrievable
unchanged. -/
theorem C1_create_duplicate_email (db : DB) (now : Nat) (name : String) (r : Record)
    (hwf : db.WF) (hmem : r ∈ db.rows) (hname : pyStrip name ≠ "") :
    (create_user db now name r.email).result =
      .error (.duplicateError "Email already exists") ∧
    (create_user db now name r.email).db = db ∧
    (read_user (create_user db now name r.email).db (r.id : Int)).result = .ok r := by
  obtain ⟨hnid, hrows, hpw⟩ := hwf
  obtain ⟨hid1, _, _, _, hestrip, heat, _⟩ := hrows r hmem
  have hc1 : ¬(name = "" ∨ pyStrip name = "") := by
    push_neg
    exact ⟨ne_empty_of_pyStrip_ne hname, hname⟩
  have hc2 : ¬(r.email = "" ∨ pyContainsAt r.email = false) := by
    push_neg
    exact ⟨ne_empty_of_pyContainsAt heat, by simp [heat]⟩
  have hany : db.rows.any (fun x => x.email == pyStrip r.email) = true := by
    rw [List.any_eq_true]
    refine ⟨r, hmem, ?_⟩
    simp [hestrip]
  have hcreate : create_user db now name r.email =
      ⟨.error (.duplicateError "Email already exists"), db, 1, true, false⟩ := by
    unfold create_user
    rw [if_neg hc1, if_neg hc2, if_pos hany]
  rw [hcreate]
  refine ⟨rfl, rfl, ?_⟩
  exact read_user_ok (by omega)
    (find?_id_eq_some_of_mem (hpw.imp (fun hab => hab.1)) hmem)

/-- C1 witness: concrete instance of the duplicate-create theorem. -/
theorem C1_create_duplicate_email_witness :
    (create_user ⟨[⟨1, "Ann", "ann@x.com", some 0⟩], 2⟩ 1 "Bob"
        (Record.email ⟨1, "Ann", "ann@x.com", some 0⟩)).result =
      .error (.duplicateError "Email already exists") ∧
    (create_user ⟨[⟨1, "Ann", "ann@x.com", some 0⟩], 2⟩ 1 "Bob"
        (Record.email ⟨1, "Ann", "ann@x.com", some 0⟩)).db =
      ⟨[⟨1, "Ann", "ann@x.com", some 0⟩], 2⟩ ∧
    (read_user (create_user ⟨[⟨1, "Ann", "ann@x.com", some 0⟩], 2⟩ 1 "Bob"
        (Record.email ⟨1, "Ann", "ann@x.com", some 0⟩)).db
        ((Record.id ⟨1, "Ann", "ann@x.com", some 0⟩ : Nat) : Int)).result =
      .ok ⟨1, "Ann", "ann@x.com", some 0⟩ :=
  C1_create_duplicate_email ⟨[⟨1, "Ann", "ann@x.com", some 0⟩], 2⟩ 1 "Bob"
    ⟨1, "Ann", "ann@x.com", some 0⟩ (by decide) (by decide) (by decide)

/-- C3 counterexample: the claim as stated fails — a valid input whose
name has leading whitespace (`" Ann"`, non-empty after trim, so valid)
yields a created record whose name is the trimmed `"Ann"`, not the given
value `" Ann"`. -/
theorem C3_counterexample :
    (pyStrip " Ann" ≠ "" ∧ pyContainsAt "ann@x.com" = true ∧ DB.empty.rows = []) ∧
    (create_user DB.empty 0 " Ann" "ann@x.com").result =
      .ok ⟨1, "Ann", "ann@x.com", some 0⟩ ∧
    ("Ann" : String) ≠ " Ann" :=
  ⟨by decide, rfl, by decide⟩

/-- C3 (amended): for every valid input (name non-empty after trim, email
containing `@`, email not already present), create returns a record whose
name and email equal the trimmed given values (hence the given values
whenever those carry no surrounding whitespace), with a positive id and a
non-null `created_at`, and a subsequent get with that id returns an
identical record. -/
theorem C3_create_get_roundtrip (db : DB) (now : Nat) (name email : String)
    (hwf : db.WF) (hname : pyStrip name ≠ "") (hemail : pyContainsAt email = true)
    (hfresh : ∀ x ∈ db.rows, x.email ≠ pyStrip email) :
    ∃ u, (create_user db now name email).result = .ok u ∧
      u.name = pyStrip name ∧ u.email = pyStrip email ∧
      1 ≤ u.id ∧ u.created_at.isSome = true ∧
      (read_user (create_user db now name email).db (u.id : Int)).result = .ok u := by
  obtain ⟨hnid, hrows, hpw⟩ := hwf
  have hc1 : ¬(name = "" ∨ pyStrip name = "") := by
    push_neg
    exact ⟨ne_empty_of_pyStrip_ne hname, hname⟩
  have hc2 : ¬(email = "" ∨ pyContainsAt email = false) := by
    push_neg
    exact ⟨ne_empty_of_pyContainsAt hemail, by simp [hemail]⟩
  have hc3 : ¬(db.rows.any (fun x => x.email == pyStrip email) = true) := by
    rw [List.any_eq_true]
    push_neg
    intro x hx
    simp
    exact hfresh x hx
  have hcreate : create_user db now name email =
      ⟨.ok ⟨db.nextId, pyStrip name, pyStrip email, some now⟩,
        ⟨db.rows ++ [⟨db.nextId, pyStrip name, pyStrip email, some now⟩], db.nextId + 1⟩,
        2, true, true⟩ := by
    unfold create_user
    rw [if_neg hc1, if_neg hc2, if_neg hc3]
  rw [hcreate]
  refine ⟨⟨db.nextId, pyStrip name, pyStrip email, some now⟩, rfl, rfl, rfl, hnid, rfl, ?_⟩
  have hfind : (db.rows ++ [(⟨db.nextId, pyStrip name, pyStrip email, some now⟩ : Record)]).find?
      (fun x => (x.id : Int) == ((db.nextId : Nat) : Int)) =
      some ⟨db.nextId, pyStrip name, pyStrip email, some now⟩ := by
    rw [List.find?_append]
    have hnone : db.rows.find? (fun x => (x.id : Int) == ((db.nextId : Nat) : Int)) = none := by
      rw [List.find?_eq_none]
      intro x hx
      have hlt := (hrows x hx).2.1
      simp
      omega
    rw [hnone]
    simp [List.find?]
  refine read_user_ok ?_ hfind
  show ¬((db.nextId : Int) ≤ 0)
  omega

/-- C3 witness: concrete instance of the amended round-trip theorem. -/
theorem C3_create_get_roundtrip_witness :
    ∃ u, (create_user DB.empty 7 "Ann" "ann@x.com").result = .ok u ∧
      u.name = pyStrip "Ann" ∧ u.email = pyStrip "ann@x.com" ∧
      1 ≤ u.id ∧ u.created_at.isSome = true ∧
      (read_user (create_user DB.empty 7 "Ann" "ann@x.com").db (u.id : Int)).result = .ok u :=
  C3_create_get_roundtrip DB.empty 7 "Ann" "ann@x.com" (by decide) (by decide) (by decide)
    (by decide)

/-- C4: for every well-formed state containing a record with id `i`,
`delete(i)` succeeds, returns the record exactly as it was before
removal, and removes it so that a subsequent get fails with
`NotFoundError`; for a positive id with no record, delete fails with
`NotFoundError` and the state is unchanged. -/
theorem C4_delete_semantics (db : DB) (hwf : db.WF) :
    (∀ r ∈ db.rows,
      (delete_user db (r.id : Int)).result = .ok r ∧
      r ∉ (delete_user db (r.id : Int)).db.rows ∧
      (∀ x ∈ db.rows, x.id ≠ r.id → x ∈ (delete_user db (r.id : Int)).db.rows) ∧
      (∃ m, (read_user (delete_user db (r.id : Int)).db (r.id : Int)).result =
        .error (.notFoundError m))) ∧
    (∀ i : Int, 0 < i → (∀ x ∈ db.rows, (x.id : Int) ≠ i) →
      (∃ m, (delete_user db i).result = .error (.notFoundError m)) ∧
      (delete_user db i).db = db) := by
  obtain ⟨hnid, hrows, hpw⟩ := hwf
  constructor
  · intro r hmem
    have hid1 := (hrows r hmem).1
    have hpos : ¬((r.id : Int) ≤ 0) := by omega
    have hfind := find?_id_eq_some_of_mem (hpw.imp (fun hab => hab.1)) hmem
    have hdel : delete_user db (r.id : Int) =
        ⟨.ok r, ⟨db.rows.filter (fun x => !((x.id : Int) == (r.id : Int))), db.nextId⟩,
          2, true, true⟩ := by
      unfold delete_user
      rw [if_neg hpos, hfind]
    rw [hdel]
    refine ⟨rfl, ?_, ?_, ?_⟩
    · intro hc
      have := (List.mem_filter.mp hc).2
      simp at this
    · intro x hx hne
      refine List.mem_filter.mpr ⟨hx, ?_⟩
      simp
      omega
    · refine ⟨_, read_user_none hpos ?_⟩
      rw [List.find?_eq_none]
      intro x hx
      have := (List.mem_filter.mp hx).2
      simpa using this
  · intro i hi hnone
    have hpos : ¬(i ≤ 0) := by omega
    have hfind : db.rows.find? (fun x => (x.id : Int) == i) = none := by
      rw [List.find?_eq_none]
      intro x hx
      simp
      exact hnone x hx
    have hdel : delete_user db i =
        ⟨.error (.notFoundError ("User with ID " ++ toString i ++ " not found")),
          db, 1, true, false⟩ := by
      unfold delete_user
      rw [if_neg hpos, hfind]
    rw [hdel]
    exact ⟨⟨_, rfl⟩, rfl⟩

/-- C4 witness: concrete instance of the delete theorem. -/
theorem C4_delete_semantics_witness :
    (delete_user ⟨[⟨1, "Ann", "ann@x.com", some 0⟩], 2⟩
        ((Record.id ⟨1, "Ann", "ann@x.com", some 0⟩ : Nat) : Int)).result =
      .ok ⟨1, "Ann", "ann@x.com", some 0⟩ :=
  ((C4_delete_semantics ⟨[⟨1, "Ann", "ann@x.com", some 0⟩], 2⟩ (by decide)).1
    ⟨1, "Ann", "ann@x.com", some 0⟩ (by decide)).1

/-- C5: a successful update of an existing record modifies only the
supplied fields; an unsupplied (`None`) field keeps its previous value,
`id` and `created_at` are never changed, and every other record is left
in place. -/
theorem C5_update_frame (db : DB) (r : Record) (nm em : Option String) (u : Record)
    (hwf : db.WF) (hmem : r ∈ db.rows)
    (hok : (update_user db (r.id : Int) nm em).result = .ok u) :
    u.id = r.id ∧ u.created_at = r.created_at ∧
    (nm = none → u.name = r.name) ∧ (em = none → u.email = r.email) ∧
    (∀ x ∈ db.rows, x.id ≠ r.id → x ∈ (update_user db (r.id : Int) nm em).db.rows) := by
  obtain ⟨hnid, hrows, hpw⟩ := hwf
  have hfind := find?_id_eq_some_of_mem (hpw.imp (fun hab => hab.1)) hmem
  rcases update_user_cases db (r.id : Int) nm em with
    ⟨m, hc⟩ | ⟨m, hc⟩ | ⟨m, hc⟩ | hc | ⟨r', hf, hc⟩
  · rw [hc] at hok
    exact absurd hok (by simp)
  · rw [hc] at hok
    exact absurd hok (by simp)
  · rw [hc] at hok
    exact absurd hok (by simp)
  · rw [hc] at hok
    exact absurd hok (by simp)
  · rw [hfind] at hf
    have hrr : r = r' := by
      injection hf
    subst hrr
    rw [hc] at hok
    have hu0 : (Except.ok (applyUpdate nm em r) : Except DBError Record) = Except.ok u := hok
    have hu : applyUpdate nm em r = u := by
      injection hu0
    subst hu
    refine ⟨rfl, rfl, ?_, ?_, ?_⟩
    · intro h
      subst h
      simp [applyUpdate, pyTruthy]
    · intro h
      subst h
      simp [applyUpdate, pyTruthy]
    · intro x hx hne
      rw [hc]
      refine List.mem_map.mpr ⟨x, hx, ?_⟩
      have hb : ¬(((x.id : Int) == ((r.id : Nat) : Int)) = true) := by
        simp
        omega
      rw [if_neg hb]

/-- C5 witness: concrete instance of the update-frame theorem. -/
theorem C5_update_frame_witness :
    (⟨1, "Bo", "ann@x.com", some 0⟩ : Record).id =
      (⟨1, "Ann", "ann@x.com", some 0⟩ : Record).id ∧
    (⟨1, "Bo", "ann@x.com", some 0⟩ : Record).created_at =
      (⟨1, "Ann", "ann@x.com", some 0⟩ : Record).created_at ∧
    ((some "Bo" : Option String) = none →
      (⟨1, "Bo", "ann@x.com", some 0⟩ : Record).name =
        (⟨1, "Ann", "ann@x.com", some 0⟩ : Record).name) ∧
    ((none : Option String) = none →
      (⟨1, "Bo", "ann@x.com", some 0⟩ : Record).email =
        (⟨1, "Ann", "ann@x.com", some 0⟩ : Record).email) ∧
    (∀ x ∈ (⟨[⟨1, "Ann", "ann@x.com", some 0⟩], 2⟩ : DB).rows,
      x.id ≠ (⟨1, "Ann", "ann@x.com", some 0⟩ : Record).id →
      x ∈ (update_user ⟨[⟨1, "Ann", "ann@x.com", some 0⟩], 2⟩
        ((Record.id ⟨1, "Ann", "ann@x.com", some 0⟩ : Nat) : Int)
        (some "Bo") none).db.rows) :=
  C5_update_frame ⟨[⟨1, "Ann", "ann@x.com", some 0⟩], 2⟩ ⟨1, "Ann", "ann@x.com", some 0⟩
    (some "Bo") none ⟨1, "Bo", "ann@x.com", some 0⟩ (by decide) (by decide) rfl

/-- C9: for every state and every id, update with neither name nor email
supplied fails with a ValidationError (the at-least-one-field message, or
the id-positivity message when the id is non-positive) and leaves the
whole store unchanged. -/
theorem C9_update_no_fields (db : DB) (uid : Int) :
    (∃ m, (update_user db uid none none).result = .error (.validationError m)) ∧
    (update_user db uid none none).db = db := by
  by_cases h1 : uid ≤ 0
  · have hu : update_user db uid none none =
        ⟨.error (.validationError "User ID must be a positive integer"), db, 0, false, false⟩ := by
      unfold update_user
      rw [if_pos h1]
    rw [hu]
    exact ⟨⟨_, rfl⟩, rfl⟩
  · have hu : update_user db uid none none =
        ⟨.error (.validationError "At least one field (name or email) must be provided"),
          db, 0, false, false⟩ := by
      unfold update_user
      rw [if_neg h1, if_pos (by decide)]
    rw [hu]
    exact ⟨⟨_, rfl⟩, rfl⟩

/-- C10: update treats an empty string the same as an omitted field: for
an existing record, `update(id, name="", email=e)` with a valid,
collision-free `e` succeeds and updates only the email (the empty name is
neither validated nor rejected), and `update(id, name="", email="")`
fails with the at-least-one-field ValidationError, not the
non-empty-name one. -/
theorem C10_empty_string_is_omitted (db : DB) (r : Record) (e : String)
    (hwf : db.WF) (hmem : r ∈ db.rows)
    (he1 : e ≠ "") (he2 : pyContainsAt e = true)
    (hfresh : ∀ x ∈ db.rows, x.id ≠ r.id → x.email ≠ pyStrip e) :
    (update_user db (r.id : Int) (some "") (some e)).result =
      .ok ⟨r.id, r.name, pyStrip e, r.created_at⟩ ∧
    (update_user db (r.id : Int) (some "") (some "")).result =
      .error (.validationError "At least one field (name or email) must be provided") := by
  obtain ⟨hnid, hrows, hpw⟩ := hwf
  have hid1 := (hrows r hmem).1
  have hpos : ¬((r.id : Int) ≤ 0) := by omega
  have hfind := find?_id_eq_some_of_mem (hpw.imp (fun hab => hab.1)) hmem
  constructor
  · have h2 : ¬((!(pyTruthy (some "")) && !(pyTruthy (some e))) = true) := by
      simp [pyTruthy, he1]
    have hany : (db.rows.any
        (fun x => !((x.id : Int) == ((r.id : Nat) : Int)) &&
          (x.email == pyStrip ((some e).getD "")))) = false := by
      rw [List.any_eq_false]
      intro x hx
      by_cases hxid : x.id = r.id
      · simp [hxid]
      · have hne := hfresh x hx hxid
        simp [hne]
    unfold update_user
    rw [if_neg hpos, if_neg h2, hfind]
    simp [pyTruthy, he1, he2, hany, applyUpdate]
    split_ifs with hdup
    · rcases hdup with ⟨x, hx, hxid, hxe⟩
      exact absurd hxe (hfresh x hx hxid)
    · rfl
  · have h2 : ((!(pyTruthy (some "")) && !(pyTruthy (some ""))) = true) := by decide
    unfold update_user
    rw [if_neg hpos, if_pos h2]

/-- C10 witness: concrete instance of the empty-string-update theorem. -/
theorem C10_empty_string_is_omitted_witness :
    (update_user ⟨[⟨1, "Ann", "ann@x.com", some 0⟩], 2⟩
        ((Record.id ⟨1, "Ann", "ann@x.com", some 0⟩ : Nat) : Int)
        (some "") (some "new@x.com")).result =
      .ok ⟨1, "Ann", pyStrip "new@x.com", some 0⟩ ∧
    (update_user ⟨[⟨1, "Ann", "ann@x.com", some 0⟩], 2⟩
        ((Record.id ⟨1, "Ann", "ann@x.com", some 0⟩ : Nat) : Int)
        (some "") (some "")).result =
      .error (.validationError "At least one field (name or email) must be provided") :=
  C10_empty_string_is_omitted ⟨[⟨1, "Ann", "ann@x.com", some 0⟩], 2⟩
    ⟨1, "Ann", "ann@x.com", some 0⟩ "new@x.com" (by decide) (by decide) (by decide)
    (by decide) (by decide)

/-- C2 counterexample: a create that fails with DuplicateError opens the
connection and returns without closing it (the `except` clause in
`create_user` re-raises without `conn.close()`), so not every operation
releases the resource on every exit path. -/
theorem C2_counterexample :
    (create_user ⟨[⟨1, "Eve", "eve@x.com", some 0⟩], 2⟩ 3 "Eve2" "eve@x.com").result =
      .error (.duplicateError "Email already exists") ∧
    (create_user ⟨[⟨1, "Eve", "eve@x.com", some 0⟩], 2⟩ 3 "Eve2" "eve@x.com").connOpened =
      true ∧
    (create_user ⟨[⟨1, "Eve", "eve@x.com", some 0⟩], 2⟩ 3 "Eve2" "eve@x.com").connClosed =
      false :=
  ⟨rfl, rfl, rfl⟩

/-- C2 (amended): every operation releases the connection it opened on
its success path; `get` and `list` release it on every path; but
`create`, `update` and `delete` return without closing the connection on
the error exits taken after it was opened (duplicate email, not-found,
and update's per-field validation failures). -/
theorem C2_connection_release :
    (∀ (db : DB) (now : Nat) (n e : String) (u : Record),
      (create_user db now n e).result = .ok u →
      (create_user db now n e).connOpened = true ∧
        (create_user db now n e).connClosed = true) ∧
    (∀ (db : DB) (uid : Int) (nm em : Option String) (u : Record),
      (update_user db uid nm em).result = .ok u →
      (update_user db uid nm em).connOpened = true ∧
        (update_user db uid nm em).connClosed = true) ∧
    (∀ (db : DB) (uid : Int) (u : Record),
      (delete_user db uid).result = .ok u →
      (delete_user db uid).connOpened = true ∧ (delete_user db uid).connClosed = true) ∧
    (∀ (db : DB) (uid : Int),
      (read_user db uid).connOpened = (read_user db uid).connClosed) ∧
    (∀ (db : DB) (l o : Int),
      (read_all_users db l o).connOpened = true ∧ (read_all_users db l o).connClosed = true) ∧
    (∀ (db : DB) (now : Nat) (n e m : String),
      (create_user db now n e).result = .error (.duplicateError m) →
      (create_user db now n e).connOpened = true ∧
        (create_user db now n e).connClosed = false) ∧
    (∀ (db : DB) (uid : Int) (nm em : Option String) (m : String),
      (update_user db uid nm em).result = .error (.notFoundError m) →
      (update_user db uid nm em).connOpened = true ∧
        (update_user db uid nm em).connClosed = false) ∧
    (∀ (db : DB) (uid : Int) (m : String),
      (delete_user db uid).result = .error (.notFoundError m) →
      (delete_user db uid).connOpened = true ∧ (delete_user db uid).connClosed = false) ∧
    (∀ (db : DB) (uid : Int) (nm em : Option String) (m : String),
      (update_user db uid nm em).result = .error (.validationError m) →
      (update_user db uid nm em).connOpened = true →
      (update_user db uid nm em).connClosed = false) ∧
    (∀ (db : DB) (uid : Int) (nm em : Option String) (m : String),
      (update_user db uid nm em).result = .error (.duplicateError m) →
      (update_user db uid nm em).connOpened = true ∧
        (update_user db uid nm em).connClosed = false) := by
  refine ⟨?_, ?_, ?_, ?_, ?_, ?_, ?_, ?_, ?_, ?_⟩
  · intro db now n e u h
    rcases create_user_cases db now n e with ⟨m, hc⟩ | hc | hc
    · rw [hc] at h
      exact absurd h (by simp)
    · rw [hc] at h
      exact absurd h (by simp)
    · rw [hc]
      exact ⟨rfl, rfl⟩
  · intro db uid nm em u h
    rcases update_user_cases db uid nm em with
      ⟨m, hc⟩ | ⟨m, hc⟩ | ⟨m, hc⟩ | hc | ⟨r, hf, hc⟩
    · rw [hc] at h
      exact absurd h (by simp)
    · rw [hc] at h
      exact absurd h (by simp)
    · rw [hc] at h
      exact absurd h (by simp)
    · rw [hc] at h
      exact absurd h (by simp)
    · rw [hc]
      exact ⟨rfl, rfl⟩
  · intro db uid u h
    rcases delete_user_cases db uid with ⟨m, hc⟩ | ⟨m, hc⟩ | ⟨r, hf, hc⟩
    · rw [hc] at h
      exact absurd h (by simp)
    · rw [hc] at h
      exact absurd h (by simp)
    · rw [hc]
      exact ⟨rfl, rfl⟩
  · intro db uid
    by_cases h1 : uid ≤ 0
    · simp [read_user, h1]
    · rcases hf : db.rows.find? (fun r => (r.id : Int) == uid) with _ | r <;>
        simp [read_user, h1, hf]
  · intro db l o
    exact ⟨rfl, rfl⟩
  · intro db now n e m h
    rcases create_user_cases db now n e with ⟨m', hc⟩ | hc | hc
    · rw [hc] at h
      exact absurd h (by simp)
    · rw [hc]
      exact ⟨rfl, rfl⟩
    · rw [hc] at h
      exact absurd h (by simp)
  · intro db uid nm em m h
    rcases update_user_cases db uid nm em with
      ⟨m', hc⟩ | ⟨m', hc⟩ | ⟨m', hc⟩ | hc | ⟨r, hf, hc⟩
    · rw [hc] at h
      exact absurd h (by simp)
    · rw [hc]
      exact ⟨rfl, rfl⟩
    · rw [hc] at h
      exact absurd h (by simp)
    · rw [hc] at h
      exact absurd h (by simp)
    · rw [hc] at h
      exact absurd h (by simp)
  · intro db uid m h
    rcases delete_user_cases db uid with ⟨m', hc⟩ | ⟨m', hc⟩ | ⟨r, hf, hc⟩
    · rw [hc] at h
      exact absurd h (by simp)
    · rw [hc]
      exact ⟨rfl, rfl⟩
    · rw [hc] at h
      exact absurd h (by simp)
  · intro db uid nm em m h hop
    rcases update_user_cases db uid nm em with
      ⟨m', hc⟩ | ⟨m', hc⟩ | ⟨m', hc⟩ | hc | ⟨r, hf, hc⟩
    · rw [hc] at hop
      exact absurd hop (by simp)
    · rw [hc] at h
      exact absurd h (by simp)
    · rw [hc]
    · rw [hc] at h
      exact absurd h (by simp)
    · rw [hc] at h
      exact absurd h (by simp)
  · intro db uid nm em m h
    rcases update_user_cases db uid nm em with
      ⟨m', hc⟩ | ⟨m', hc⟩ | ⟨m', hc⟩ | hc | ⟨r, hf, hc⟩
    · rw [hc] at h
      exact absurd h (by simp)
    · rw [hc] at h
      exact absurd h (by simp)
    · rw [hc] at h
      exact absurd h (by simp)
    · rw [hc]
      exact ⟨rfl, rfl⟩
    · rw [hc] at h
      exact absurd h (by simp)

/-- C2 witness: the success-path conjunct of the amended theorem at a
concrete successful create. -/
theorem C2_connection_release_witness :
    (create_user DB.empty 0 "Ann" "ann@x.com").connOpened = true ∧
    (create_user DB.empty 0 "Ann" "ann@x.com").connClosed = true :=
  C2_connection_release.1 DB.empty 0 "Ann" "ann@x.com"
    ⟨1, "Ann", "ann@x.com", some 0⟩ rfl

/-- C8 counterexample: `update_user` on an existing record with a
whitespace-only supplied name raises the non-empty-name ValidationError
only after the existence-check SELECT has already reached the storage
layer (one statement executed), refuting "never reaches the storage
layer". -/
theorem C8_counterexample :
    (update_user ⟨[⟨1, "Ann", "ann@x.com", some 0⟩], 2⟩ 1 (some " ") none).result =
      .error (.validationError "Name must be a non-empty string") ∧
    (update_user ⟨[⟨1, "Ann", "ann@x.com", some 0⟩], 2⟩ 1 (some " ") none).stmts = 1 :=
  ⟨rfl, rfl⟩

/-- C8 (amended): validation failures in create, get and delete are
raised before any statement reaches the storage layer; in update, the
id-positivity and at-least-one-field failures are also pre-storage, but a
supplied-field format failure is raised only after the existence-check
SELECT, so a ValidationError from update may follow one executed
statement (never more). -/
theorem C8_validation_before_storage :
    (∀ (db : DB) (now : Nat) (n e m : String),
      (create_user db now n e).result = .error (.validationError m) →
      (create_user db now n e).stmts = 0) ∧
    (∀ (db : DB) (uid : Int) (m : String),
      (read_user db uid).result = .error (.validationError m) →
      (read_user db uid).stmts = 0) ∧
    (∀ (db : DB) (uid : Int) (m : String),
      (delete_user db uid).result = .error (.validationError m) →
      (delete_user db uid).stmts = 0) ∧
    (∀ (db : DB) (uid : Int) (nm em : Option String) (m : String),
      (update_user db uid nm em).result = .error (.validationError m) →
      (update_user db uid nm em).stmts ≤ 1) ∧
    (∀ (db : DB) (uid : Int) (nm em : Option String),
      uid ≤ 0 ∨ (pyTruthy nm = false ∧ pyTruthy em = false) →
      (∃ m, (update_user db uid nm em).result = .error (.validationError m)) ∧
      (update_user db uid nm em).stmts = 0) ∧
    (∀ (db : DB) (uid : Int) (nm em : Option String) (m : String),
      (update_user db uid nm em).result = .error (.validationError m) →
      (update_user db uid nm em).connOpened = true →
      (update_user db uid nm em).stmts = 1) := by
  refine ⟨?_, ?_, ?_, ?_, ?_, ?_⟩
  · intro db now n e m h
    rcases create_user_cases db now n e with ⟨m', hc⟩ | hc | hc
    · rw [hc]
    · rw [hc] at h
      exact absurd h (by simp)
    · rw [hc] at h
      exact absurd h (by simp)
  · intro db uid m h
    by_cases h1 : uid ≤ 0
    · simp [read_user, h1]
    · rcases hf : db.rows.find? (fun r => (r.id : Int) == uid) with _ | r <;>
        simp [read_user, h1, hf] at h
  · intro db uid m h
    rcases delete_user_cases db uid with ⟨m', hc⟩ | ⟨m', hc⟩ | ⟨r, hf, hc⟩
    · rw [hc]
    · rw [hc] at h
      exact absurd h (by simp)
    · rw [hc] at h
      exact absurd h (by simp)
  · intro db uid nm em m h
    rcases update_user_cases db uid nm em with
      ⟨m', hc⟩ | ⟨m', hc⟩ | ⟨m', hc⟩ | hc | ⟨r, hf, hc⟩
    · rw [hc]
      exact Nat.zero_le 1
    · rw [hc] at h
      exact absurd h (by simp)
    · rw [hc]
    · rw [hc] at h
      exact absurd h (by simp)
    · rw [hc] at h
      exact absurd h (by simp)
  · intro db uid nm em hpre
    by_cases h1 : uid ≤ 0
    · have hu : update_user db uid nm em =
          ⟨.error (.validationError "User ID must be a positive integer"),
            db, 0, false, false⟩ := by
        unfold update_user
        rw [if_pos h1]
      rw [hu]
      exact ⟨⟨_, rfl⟩, rfl⟩
    · rcases hpre with h1' | ⟨hn, he⟩
      · exact absurd h1' h1
      · have h2 : (!(pyTruthy nm) && !(pyTruthy em)) = true := by
          simp [hn, he]
        have hu : update_user db uid nm em =
            ⟨.error (.validationError "At least one field (name or email) must be provided"),
              db, 0, false, false⟩ := by
          unfold update_user
          rw [if_neg h1, if_pos h2]
        rw [hu]
        exact ⟨⟨_, rfl⟩, rfl⟩
  · intro db uid nm em m h hop
    rcases update_user_cases db uid nm em with
      ⟨m', hc⟩ | ⟨m', hc⟩ | ⟨m', hc⟩ | hc | ⟨r, hf, hc⟩
    · rw [hc] at hop
      exact absurd hop (by simp)
    · rw [hc] at h
      exact absurd h (by simp)
    · rw [hc]
    · rw [hc] at h
      exact absurd h (by simp)
    · rw [hc] at h
      exact absurd h (by simp)

/-- C8 witness: the create conjunct of the amended theorem at a concrete
invalid input. -/
theorem C8_validation_before_storage_witness :
    (create_user DB.empty 0 "" "x@y").stmts = 0 :=
  C8_validation_before_storage.1 DB.empty 0 "" "x@y"
    "Name must be a non-empty string" rfl

/-- C6: list always succeeds with the records ordered by id descending
within the pagination window and the total count of all records
independent of the window; in particular after creating "A" then "B" on
an empty store, `list(limit=1, offset=0)` returns only the "B" record
with total 2. -/
theorem C6_list_order_and_total :
    (∀ (db : DB) (l o : Int), ∃ p : PageData,
      (read_all_users db l o).result = .ok p ∧
      List.Pairwise (fun a b => b.id ≤ a.id) p.data ∧
      p.total = db.rows.length ∧
      ∀ x ∈ p.data, x ∈ db.rows) ∧
    (read_all_users (create_user (create_user DB.empty 0 "A" "a@x.com").db 1 "B" "b@x.com").db
        1 0).result = .ok ⟨[⟨2, "B", "b@x.com", some 1⟩], 2, 1, 0⟩ := by
  constructor
  · intro db l o
    refine ⟨_, rfl, ?_, rfl, ?_⟩
    · exact List.Pairwise.sublist
        ((List.take_sublist _ _).trans (List.drop_sublist _ _)) (sortDesc_pairwise db.rows)
    · intro x hx
      exact (sortDesc_perm db.rows).mem_iff.mp
        (((List.take_sublist _ _).trans (List.drop_sublist _ _)).subset hx)
  · rfl

/-- C7: list never rejects its pagination inputs: a limit outside
`(0, 1000]` behaves as limit 100, a negative offset behaves as offset 0,
and `list(limit=0, offset=-5)` returns exactly the same outcome as
`list()` with the defaults 100/0, in every state. -/
theorem C7_list_clamps :
    (∀ (db : DB) (l o : Int), l ≤ 0 ∨ 1000 < l →
      read_all_users db l o = read_all_users db 100 o) ∧
    (∀ (db : DB) (l o : Int), o < 0 → read_all_users db l o = read_all_users db l 0) ∧
    (∀ db : DB, read_all_users db 0 (-5) = read_all_users db 100 0) := by
  refine ⟨?_, ?_, ?_⟩
  · intro db l o hl
    unfold read_all_users
    rw [if_pos hl, if_neg (by norm_num : ¬((100 : Int) ≤ 0 ∨ 1000 < (100 : Int)))]
  · intro db l o ho
    unfold read_all_users
    rw [if_pos ho, if_neg (by norm_num : ¬((0 : Int) < 0))]
  · intro db
    rfl

/-- C7 witness: the limit-clamp conjunct at a concrete out-of-range
limit. -/
theorem C7_list_clamps_witness :
    read_all_users DB.empty 0 5 = read_all_users DB.empty 100 5 :=
  C7_list_clamps.1 DB.empty 0 5 (by norm_num)
